import Mathlib

/-!
Verification of the Kanizsa user-management service (src/user_api.py).

The Python module is embedded shallowly:

* `USERS_DB` (a Python `dict`, insertion ordered) becomes an association
  list `Store`; keys are `Option String` because the code can store a
  record under the key `None` when the request body lacks an email.
* `bcrypt.hashpw`/`bcrypt.checkpw` are modelled as an idealized salted
  hash: the hash is an opaque pair of the hashed password and the salt,
  and `checkpw` compares the candidate against the stored password.
* a JWT is either an unparsable string (`Token.malformed`) or a payload
  signed with some key (`Token.signed`); the `user_id` claim of a
  payload is an `Option String` because a validly signed token need not
  carry that key (the code then hits an uncaught `KeyError`).
* each Flask handler becomes a pure function from its inputs (store,
  request body, clock, secret key) to a response value; `PyResult`
  distinguishes a returned response from an uncaught Python exception.
-/

namespace UserApi

/-- Idealized bcrypt hash: `bcrypt.hashpw(password, gensalt())`.  The salt is
threaded explicitly because `gensalt` is random. -/
structure BcryptHash where
  password : String
  salt : Nat
deriving DecidableEq

/-- `bcrypt.hashpw(password.encode(), salt)`. -/
def bcrypt_hashpw (password : String) (salt : Nat) : BcryptHash :=
  ⟨password, salt⟩

/-- `bcrypt.checkpw(candidate.encode(), stored)`: true iff the candidate
equals the password the stored hash was derived from. -/
def bcrypt_checkpw (candidate : String) (stored : BcryptHash) : Bool :=
  stored.password == candidate

/-- One record of `USERS_DB` (src/user_api.py lines 22-30 and 80-88).
`email` and `name` are `Option String`: the register handler stores
`data.get(...)` results, which are `None` when the field is missing. -/
structure UserRecord where
  id : String
  email : Option String
  password_hash : BcryptHash
  name : Option String
  role : String
  created_at : String
  is_active : Bool
deriving DecidableEq

/-- `USERS_DB`: a Python dict keyed by the email value (possibly `None`),
kept in insertion order, exactly as Python 3.7+ dicts are. -/
abbrev Store := List (Option String × UserRecord)

/-- `JWT_ALGORITHM = 'HS256'` (line 18). -/
def JWT_ALGORITHM : String := "HS256"

/-- `JWT_SECRET_KEY = os.environ.get('JWT_SECRET_KEY', 'your-secret-key')`
(line 17): the process environment is an association list; a missing
variable silently falls back to the hardcoded default. -/
def jwt_secret_key (env : List (String × String)) : String :=
  match env.lookup "JWT_SECRET_KEY" with
  | some v => v
  | none => "your-secret-key"

/-- The seeded `USERS_DB` at import time (lines 21-31), parameterized by
the random salt `bcrypt.gensalt()` produced. -/
def INITIAL_USERS_DB (salt : Nat) : Store :=
  [(some "user1@example.com",
    { id := "user1"
      email := some "user1@example.com"
      password_hash := bcrypt_hashpw "password123" salt
      name := some "John Doe"
      role := "user"
      created_at := "2025-01-01T00:00:00Z"
      is_active := true })]

/-- A decoded JWT payload.  `user_id` is the value of the payload entry
with key `user_id`, `none` when the entry is absent; `exp` and `iat`
are UNIX timestamps in seconds. -/
structure Payload where
  user_id : Option String
  exp : Nat
  iat : Nat
deriving DecidableEq

/-- A presented token: either a string `jwt.decode` cannot parse, or a
payload signed with some key (signature verification succeeds exactly
when that key equals the key used by the verifier). -/
inductive Token where
  | malformed (raw : String)
  | signed (payload : Payload) (key : String)
deriving DecidableEq

/-- Outcome of running a Python operation: a returned value, or an
uncaught exception escaping the handler. -/
inductive PyResult (α : Type) where
  | ok (value : α)
  | raises (exn : String)
deriving DecidableEq

/-- `generate_token` (lines 33-40): payload with subject, issued-at
`now`, expiry `now + 24h`, signed with `key`. -/
def generate_token (user_id : String) (now : Nat) (key : String) : Token :=
  .signed { user_id := some user_id, exp := now + 24 * 3600, iat := now } key

/-- `verify_token` (lines 42-50).  `jwt.decode` first checks the
signature (`InvalidTokenError` on mismatch or unparsable input, caught,
returns `None`), then the `exp` claim (expired when `exp <= now`,
`ExpiredSignatureError`, caught, returns `None`); then the handler reads
`payload['user_id']`, which raises an uncaught `KeyError` when the claim
is absent. -/
def verify_token (token : Token) (now : Nat) (serverKey : String) :
    PyResult (Option String) :=
  match token with
  | .malformed _ => .ok none
  | .signed payload key =>
    if key ≠ serverKey then .ok none
    else if payload.exp ≤ now then .ok none
    else
      match payload.user_id with
      | some uid => .ok (some uid)
      | none => .raises "KeyError: user_id"

/-- Body of a POST /auth/register request after `get_json`; each field is
`data.get(...)`, hence optional. -/
structure RegisterBody where
  email : Option String
  password : Option String
  name : Option String
deriving DecidableEq

/-- Body of a POST /auth/login request after `get_json`. -/
structure LoginBody where
  email : Option String
  password : Option String
deriving DecidableEq

/-- `email in USERS_DB`. -/
def has_key (db : Store) (k : Option String) : Bool :=
  db.any (fun e => e.1 == k)

/-- `USERS_DB[email]`: first (only) entry under that dict key. -/
def db_get (db : Store) (k : Option String) : Option UserRecord :=
  match db.find? (fun e => e.1 == k) with
  | some e => some e.2
  | none => none

/-- `f'user{len(USERS_DB) + 1}'` uses Python `str` on the number, i.e.
decimal notation, which is exactly `Nat.repr`. -/
def mk_user_id (n : Nat) : String :=
  "user" ++ Nat.repr n

/-- Response of the register handler.  `success` is the 200 body
`{status: success, user_id, message}`; `errObj s m` is `({error: m}, s)`;
`exnObj s m` is the except-branch body `{status: error, error: str(e)}`
with HTTP status `s` — a distinct JSON shape carrying the raw exception
text. -/
inductive RegisterResp where
  | success (user_id : String)
  | errObj (status : Nat) (error : String)
  | exnObj (status : Nat) (error : String)
deriving DecidableEq

/-- `register` (lines 61-99), given the request body, the random salt of
this call's `gensalt()`, and `datetime.utcnow().isoformat()`.  Returns
the response and the store after the call.  When the body lacks a
password, `password.encode('utf-8')` raises `AttributeError`, which the
`except Exception` branch converts to a 400 carrying `str(e)` — the text
is the raw CPython message (quotes elided). -/
def register (db : Store) (body : RegisterBody) (salt : Nat)
    (nowIso : String) : RegisterResp × Store :=
  if has_key db body.email then
    (.errObj 400 "User already exists", db)
  else
    match body.password with
    | none =>
      (.exnObj 400 "AttributeError: NoneType object has no attribute encode", db)
    | some pw =>
      let password_hash := bcrypt_hashpw pw salt
      let user_id := mk_user_id (db.length + 1)
      let newUser : UserRecord :=
        { id := user_id
          email := body.email
          password_hash := password_hash
          name := body.name
          role := "user"
          created_at := nowIso
          is_active := true }
      (.success user_id, db ++ [(body.email, newUser)])

/-- Response of the login handler.  `success` is the 200 body with the
token and the `{id, email, name, role}` projection of the record. -/
inductive LoginResp where
  | success (token : Token) (id : String) (email : Option String)
      (name : Option String) (role : String)
  | errObj (status : Nat) (error : String)
  | exnObj (status : Nat) (error : String)
deriving DecidableEq

/-- `login` (lines 101-139).  `email not in USERS_DB` and the subsequent
`USERS_DB[email]` are combined into one lookup: the lookup fails exactly
when the membership test does.  A missing password reaches
`password.encode('utf-8')` inside `checkpw` and raises, caught by the
except branch. -/
def login (db : Store) (body : LoginBody) (now : Nat)
    (serverKey : String) : LoginResp :=
  match db_get db body.email with
  | none => .errObj 401 "Invalid credentials"
  | some user =>
    match body.password with
    | none =>
      .exnObj 400 "AttributeError: NoneType object has no attribute encode"
    | some pw =>
      if ¬ bcrypt_checkpw pw user.password_hash then
        .errObj 401 "Invalid credentials"
      else
        .success (generate_token user.id now serverKey)
          user.id user.email user.name user.role

/-- The Authorization header of a protected request: absent, present but
not of the form `Bearer <token>`, or carrying a token. -/
inductive AuthHeader where
  | missing
  | notBearer (raw : String)
  | bearer (token : Token)
deriving DecidableEq

/-- Response of GET /users/profile. -/
inductive ProfileResp where
  | success (id : String) (email : Option String) (name : Option String)
      (role : String) (created_at : String)
  | errObj (status : Nat) (error : String)
deriving DecidableEq

/-- The find-user-by-id loop of lines 159-163: first record (in dict
insertion order) whose `id` field matches. -/
def find_by_id (db : Store) (user_id : String) : Option UserRecord :=
  match db.find? (fun e => e.2.id == user_id) with
  | some e => some e.2
  | none => none

/-- `get_profile` (lines 141-178).  `if not user_id` is a Python
falsiness test: both `None` and the empty string are rejected.  The
handler has no try/except, so a `raises` outcome of `verify_token`
escapes the handler. -/
def get_profile (db : Store) (auth : AuthHeader) (now : Nat)
    (serverKey : String) : PyResult ProfileResp :=
  match auth with
  | .missing => .ok (.errObj 401 "Authorization header required")
  | .notBearer _ => .ok (.errObj 401 "Authorization header required")
  | .bearer token =>
    match verify_token token now serverKey with
    | .raises e => .raises e
    | .ok none => .ok (.errObj 401 "Invalid token")
    | .ok (some uid) =>
      if uid = "" then .ok (.errObj 401 "Invalid token")
      else
        match find_by_id db uid with
        | none => .ok (.errObj 404 "User not found")
        | some user =>
          .ok (.success user.id user.email user.name user.role user.created_at)

/-- Response of PUT /users/profile. -/
inductive UpdateResp where
  | success
  | errObj (status : Nat) (error : String)
  | exnObj (status : Nat) (error : String)
deriving DecidableEq

/-- The update loop of lines 202-208: walk the store in insertion order;
on the first record whose `id` matches, set its `name` field to the
request's name value and stop; `none` when no record matches (handler
then answers 404). -/
def update_users (db : Store) (user_id : String) (newName : Option String) :
    Option Store :=
  match db with
  | [] => none
  | entry :: rest =>
    if entry.2.id = user_id then
      some ((entry.1, { entry.2 with name := newName }) :: rest)
    else
      match update_users rest user_id newName with
      | some rest' => some (entry :: rest')
      | none => none

/-- `update_profile` (lines 180-217), given the name value of the body
(`data.get('name')`, possibly `None`).  The auth gate mirrors
`get_profile`; `verify_token` runs outside the try block, so its
`KeyError` escapes the handler. -/
def update_profile (db : Store) (auth : AuthHeader) (newName : Option String)
    (now : Nat) (serverKey : String) : PyResult (UpdateResp × Store) :=
  match auth with
  | .missing => .ok (.errObj 401 "Authorization header required", db)
  | .notBearer _ => .ok (.errObj 401 "Authorization header required", db)
  | .bearer token =>
    match verify_token token now serverKey with
    | .raises e => .raises e
    | .ok none => .ok (.errObj 401 "Invalid token", db)
    | .ok (some uid) =>
      if uid = "" then .ok (.errObj 401 "Invalid token", db)
      else
        match update_users db uid newName with
        | some db' => .ok (.success, db')
        | none => .ok (.errObj 404 "User not found", db)

/-- The ids stored in the store, in insertion order. -/
def store_ids (db : Store) : List String :=
  db.map (fun e => e.2.id)

/-- The id discipline the code maintains: position `i` (0-based, in
insertion order) holds id `user{i+1}`. -/
def ids_canonical (db : Store) : Prop :=
  store_ids db = (List.range db.length).map (fun i => mk_user_id (i + 1))

/-- The dict keys of the store (the email value each record was stored
under), in insertion order. -/
def store_keys (db : Store) : List (Option String) :=
  db.map Prod.fst

/-- Exactly one record per email: the store's keys are pairwise
distinct, as keys of a Python dict necessarily are. -/
def keys_nodup (db : Store) : Prop :=
  (store_keys db).Nodup

/-- Numeric value of a decimal digit character. -/
def chval (c : Char) : Nat := c.toNat - 48

/-- Fold a digit string back into a number, most significant first. -/
def chfold (a : Nat) (l : List Char) : Nat :=
  l.foldl (fun acc c => 10 * acc + chval c) a

theorem chfold_cons (a : Nat) (c : Char) (l : List Char) :
    chfold a (c :: l) = chfold (10 * a + chval c) l := rfl

theorem chval_digitChar : ∀ k, k < 10 → chval (Nat.digitChar k) = k := by decide

theorem toDigitsCore_chfold :
    ∀ (f n a : Nat) (acc : List Char), n < f →
    ∃ e, chfold a (Nat.toDigitsCore 10 f n acc) = chfold (a * 10 ^ e + n) acc := by
  intro f
  induction f with
  | zero => intro n a acc h; exact absurd h (Nat.not_lt_zero n)
  | succ f ih =>
    intro n a acc h
    by_cases h10 : n / 10 = 0
    · refine ⟨1, ?_⟩
      have hlt : n < 10 := by omega
      have hstep : Nat.toDigitsCore 10 (f + 1) n acc
          = Nat.digitChar (n % 10) :: acc := by
        simp [Nat.toDigitsCore, h10]
      rw [hstep, chfold_cons, Nat.mod_eq_of_lt hlt, chval_digitChar n hlt]
      refine congrArg (fun x => chfold x acc) ?_
      ring
    · have hn10 : n / 10 < f := by omega
      obtain ⟨e, he⟩ := ih (n / 10) a (Nat.digitChar (n % 10) :: acc) hn10
      refine ⟨e + 1, ?_⟩
      have hstep : Nat.toDigitsCore 10 (f + 1) n acc
          = Nat.toDigitsCore 10 f (n / 10) (Nat.digitChar (n % 10) :: acc) := by
        simp [Nat.toDigitsCore, h10]
      rw [hstep, he, chfold_cons, chval_digitChar _ (Nat.mod_lt _ (by norm_num))]
      refine congrArg (fun x => chfold x acc) ?_
      have hdm : 10 * (n / 10) + n % 10 = n := by omega
      calc 10 * (a * 10 ^ e + n / 10) + n % 10
          = 10 * (a * 10 ^ e) + (10 * (n / 10) + n % 10) := by ring
        _ = a * 10 ^ (e + 1) + n := by rw [hdm, pow_succ]; ring

theorem chfold_toDigits (n : Nat) : chfold 0 (Nat.toDigits 10 n) = n := by
  obtain ⟨e, he⟩ := toDigitsCore_chfold (n + 1) n 0 [] (Nat.lt_succ_self n)
  simpa [Nat.toDigits, chfold] using he

theorem nat_repr_inj {m n : Nat} (h : (Nat.repr m).data = (Nat.repr n).data) :
    m = n := by
  have hd : Nat.toDigits 10 m = Nat.toDigits 10 n := by
    simpa [Nat.repr, List.asString] using h
  have h3 := congrArg (chfold 0) hd
  rwa [chfold_toDigits, chfold_toDigits] at h3

theorem mk_user_id_injective : Function.Injective mk_user_id := by
  intro a b h
  have hd : "user".data ++ (Nat.repr a).data = "user".data ++ (Nat.repr b).data :=
    congrArg String.data h
  exact nat_repr_inj (List.append_cancel_left hd)



theorem any_eq_false_of_has_key_false {db : Store} {k : Option String}
    (h : has_key db k = false) : ∀ x ∈ db, (x.1 == k) = false := by
  intro x hx
  have := List.any_eq_false.mp h x hx
  simpa using this

theorem db_get_append_self (db : Store) (k : Option String) (r : UserRecord)
    (h : has_key db k = false) :
    db_get (db ++ [(k, r)]) k = some r := by
  have h1 : db.find? (fun e => e.1 == k) = none := by
    rw [List.find?_eq_none]
    intro x hx
    simp [any_eq_false_of_has_key_false h x hx]
  unfold db_get
  rw [List.find?_append, h1]
  simp

theorem register_fresh (db : Store) (email : Option String) (pw : String)
    (nm : Option String) (salt : Nat) (nowIso : String)
    (h : has_key db email = false) :
    register db ⟨email, some pw, nm⟩ salt nowIso
      = (.success (mk_user_id (db.length + 1)),
         db ++ [(email,
           { id := mk_user_id (db.length + 1)
             email := email
             password_hash := bcrypt_hashpw pw salt
             name := nm
             role := "user"
             created_at := nowIso
             is_active := true })]) := by
  unfold register
  simp [h]

/-- Claim C2: a second `register` with an email already present in the store
fails with the AlreadyExists error (HTTP 400, `User already exists`) and
returns the store unchanged: the first record is retained and nothing is
added. -/
theorem register_duplicate_email_unchanged
    (db : Store) (email : String) (pw nm : Option String)
    (salt : Nat) (nowIso : String)
    (hmem : has_key db (some email) = true) :
    register db ⟨some email, pw, nm⟩ salt nowIso
      = (.errObj 400 "User already exists", db) := by
  unfold register
  simp [hmem]

/-- Witness for C2 at the seeded store and its seeded email. -/
theorem register_duplicate_email_unchanged_witness :
    register (INITIAL_USERS_DB 0)
        ⟨some "user1@example.com", some "pw", some "A"⟩ 1 "t"
      = (.errObj 400 "User already exists", INITIAL_USERS_DB 0) :=
  register_duplicate_email_unchanged (INITIAL_USERS_DB 0) "user1@example.com"
    (some "pw") (some "A") 1 "t" (by decide)

/-- Claim C5: with no `JWT_SECRET_KEY` in the environment the module does NOT
fail at startup; it silently falls back to the hardcoded default key
`your-secret-key` (line 17).  An explicit environment value is honored. -/
theorem jwt_secret_key_fallback :
    jwt_secret_key [] = "your-secret-key" ∧
    jwt_secret_key [("PORT", "8000")] = "your-secret-key" ∧
    jwt_secret_key [("JWT_SECRET_KEY", "prod-key")] = "prod-key" :=
  ⟨rfl, rfl, rfl⟩

/-- Claim C7: a validly signed, unexpired token whose payload lacks the
`user_id` claim makes `verify_token` raise an uncaught `KeyError`
(line 46), which escapes both protected handlers as an unhandled fault
instead of a caller-facing result. -/
theorem verify_token_missing_subject_raises :
    verify_token (Token.signed ⟨none, 100, 0⟩ "k") 10 "k"
      = .raises "KeyError: user_id" ∧
    get_profile (INITIAL_USERS_DB 0)
        (.bearer (Token.signed ⟨none, 100, 0⟩ "k")) 10 "k"
      = .raises "KeyError: user_id" ∧
    update_profile (INITIAL_USERS_DB 0)
        (.bearer (Token.signed ⟨none, 100, 0⟩ "k")) (some "NewName") 10 "k"
      = .raises "KeyError: user_id" := by
  decide

/-- Claim C9: the handlers perform no input validation.  With a missing
password, `register` answers 400 with the raw CPython exception text in
the body (`str(e)`), not a validation error; with a missing email or a
missing name it SUCCEEDS, storing a record whose email (resp. name) is
null; `login` with a missing password also surfaces the raw exception
text. -/
theorem missing_fields_not_validation_error :
    register (INITIAL_USERS_DB 0) ⟨some "a@x.com", none, some "Ann"⟩ 1 "t"
      = (.exnObj 400 "AttributeError: NoneType object has no attribute encode",
         INITIAL_USERS_DB 0) ∧
    (register (INITIAL_USERS_DB 0) ⟨none, some "pw", some "Ann"⟩ 1 "t").1
      = .success "user2" ∧
    (register (INITIAL_USERS_DB 0) ⟨some "b@x.com", some "pw", none⟩ 1 "t").1
      = .success "user2" ∧
    login (INITIAL_USERS_DB 0) ⟨some "user1@example.com", none⟩ 0 "k"
      = .exnObj 400 "AttributeError: NoneType object has no attribute encode" := by
  decide

/-- Claim C10: the store is seeded at import time with one record — email
`user1@example.com`, id `user1`, role `user`, active, bcrypt hash of
`password123` — so the first successful registration is assigned id
`user2`. -/
theorem initial_store_seeded
    (salt salt2 : Nat) (email pw nm nowIso : String)
    (hfresh : email ≠ "user1@example.com") :
    (INITIAL_USERS_DB salt).length = 1 ∧
    (∃ r : UserRecord,
      INITIAL_USERS_DB salt = [(some "user1@example.com", r)] ∧
      r.id = "user1" ∧ r.email = some "user1@example.com" ∧ r.role = "user" ∧
      r.is_active = true ∧ r.password_hash = bcrypt_hashpw "password123" salt) ∧
    (register (INITIAL_USERS_DB salt) ⟨some email, some pw, some nm⟩
        salt2 nowIso).1 = .success "user2" := by
  refine ⟨rfl, ⟨_, rfl, rfl, rfl, rfl, rfl, rfl⟩, ?_⟩
  have hk : has_key (INITIAL_USERS_DB salt) (some email) = false := by
    simp only [has_key, INITIAL_USERS_DB, List.any_cons, List.any_nil,
      Bool.or_false, beq_eq_false_iff_ne, ne_eq, Option.some.injEq]
    exact fun h => hfresh h.symm
  rw [register_fresh _ _ _ _ _ _ hk]
  show RegisterResp.success (mk_user_id ((INITIAL_USERS_DB salt).length + 1))
      = RegisterResp.success "user2"
  have hlen : (INITIAL_USERS_DB salt).length = 1 := rfl
  rw [hlen]
  decide

/-- Witness for C10 with a concrete fresh email. -/
theorem initial_store_seeded_witness :
    (INITIAL_USERS_DB 0).length = 1 ∧
    (∃ r : UserRecord,
      INITIAL_USERS_DB 0 = [(some "user1@example.com", r)] ∧
      r.id = "user1" ∧ r.email = some "user1@example.com" ∧ r.role = "user" ∧
      r.is_active = true ∧ r.password_hash = bcrypt_hashpw "password123" 0) ∧
    (register (INITIAL_USERS_DB 0) ⟨some "a@x.com", some "pw", some "Ann"⟩
        1 "t").1 = .success "user2" :=
  initial_store_seeded 0 1 "a@x.com" "pw" "Ann" "t" (by decide)



/-- Claim C1: from any store in which `email` is not yet registered,
`register(email, password, name)` succeeds with some UserId and
`login(email, password)` on the resulting store succeeds with a token;
verifying that token (before its 24h expiry, against the same key)
resolves to exactly the UserId register returned. -/
theorem register_login_authorize_roundtrip
    (db : Store) (email pw nm : String) (salt : Nat) (nowIso : String)
    (tLogin tAuth : Nat) (serverKey : String)
    (hfresh : has_key db (some email) = false)
    (hnow : tAuth < tLogin + 24 * 3600) :
    ∃ (uid : String) (db' : Store) (token : Token),
      register db ⟨some email, some pw, some nm⟩ salt nowIso
        = (.success uid, db') ∧
      login db' ⟨some email, some pw⟩ tLogin serverKey
        = .success token uid (some email) (some nm) "user" ∧
      verify_token token tAuth serverKey = .ok (some uid) := by
  refine ⟨mk_user_id (db.length + 1),
    db ++ [(some email,
      { id := mk_user_id (db.length + 1)
        email := some email
        password_hash := bcrypt_hashpw pw salt
        name := some nm
        role := "user"
        created_at := nowIso
        is_active := true })],
    generate_token (mk_user_id (db.length + 1)) tLogin serverKey,
    register_fresh db (some email) pw (some nm) salt nowIso hfresh, ?_, ?_⟩
  · unfold login
    rw [db_get_append_self db (some email) _ hfresh]
    simp [bcrypt_checkpw, bcrypt_hashpw]
  · unfold generate_token verify_token
    have hne : ¬ (tLogin + 24 * 3600 ≤ tAuth) := by omega
    simp [hne]

/-- Witness for C1 at the seeded store with a concrete fresh email. -/
theorem register_login_authorize_roundtrip_witness :
    ∃ (uid : String) (db' : Store) (token : Token),
      register (INITIAL_USERS_DB 0) ⟨some "a@x.com", some "pw123", some "Ann"⟩
          1 "t" = (.success uid, db') ∧
      login db' ⟨some "a@x.com", some "pw123"⟩ 50 "key"
        = .success token uid (some "a@x.com") (some "Ann") "user" ∧
      verify_token token 99 "key" = .ok (some uid) :=
  register_login_authorize_roundtrip (INITIAL_USERS_DB 0) "a@x.com" "pw123"
    "Ann" 1 "t" 50 99 "key" (by decide) (by decide)

/-- Claim C3: an issued token carries subject, issued-at `now` and expiry
`now + 24h`; a signed token carrying a subject is accepted by
`verify_token` exactly when its signing key equals the service key and
the current time is strictly before its expiry; a malformed token is
rejected; every rejected token makes the authorization gate answer the
generic 401 Unauthorized response. -/
theorem token_acceptance_iff
    (uid raw : String) (e i now : Nat) (key serverKey : String) (db : Store) :
    generate_token uid i key
      = Token.signed ⟨some uid, i + 24 * 3600, i⟩ key ∧
    (verify_token (Token.signed ⟨some uid, e, i⟩ key) now serverKey
       = if key = serverKey ∧ now < e then .ok (some uid) else .ok none) ∧
    verify_token (Token.malformed raw) now serverKey = .ok none ∧
    ((¬ (key = serverKey ∧ now < e)) →
       get_profile db (.bearer (Token.signed ⟨some uid, e, i⟩ key)) now serverKey
         = .ok (.errObj 401 "Invalid token")) := by
  refine ⟨rfl, ?_, rfl, ?_⟩
  · unfold verify_token
    by_cases hk : key = serverKey
    · by_cases hlt : now < e
      · have : ¬ (e ≤ now) := by omega
        simp [hk, hlt, this]
      · have : e ≤ now := by omega
        simp [hk, hlt, this]
    · simp [hk]
  · intro hfail
    unfold get_profile verify_token
    by_cases hk : key = serverKey
    · have : e ≤ now := by
        rcases Nat.lt_or_ge now e with h | h
        · exact absurd ⟨hk, h⟩ hfail
        · exact h
      simp [hk, this]
    · simp [hk]

/-- Witness for C3: a token signed with the wrong key is rejected by the
gate with the generic 401. -/
theorem token_acceptance_iff_witness :
    get_profile (INITIAL_USERS_DB 0)
        (.bearer (Token.signed ⟨some "user1", 5, 0⟩ "k2")) 10 "k1"
      = .ok (.errObj 401 "Invalid token") :=
  (token_acceptance_iff "user1" "x" 5 0 10 "k2" "k1" (INITIAL_USERS_DB 0)).2.2.2
    (by decide)

/-- Claim C4: login with an unknown email and login with a known email but a
wrong password produce literally identical responses (same 401 status,
same `Invalid credentials` body); the gate's response to a malformed
token and to an expired (validly signed) token are likewise literally
identical (401, `Invalid token`). -/
theorem merged_failure_indistinguishability
    (db : Store) (e1 e2 pw1 pw2 : String) (r : UserRecord)
    (now tnow : Nat) (serverKey raw : String) (p : Payload)
    (h1 : db_get db (some e1) = none)
    (h2 : db_get db (some e2) = some r)
    (h3 : bcrypt_checkpw pw2 r.password_hash = false)
    (hexp : p.exp ≤ tnow) :
    login db ⟨some e1, some pw1⟩ now serverKey
      = .errObj 401 "Invalid credentials" ∧
    login db ⟨some e2, some pw2⟩ now serverKey
      = .errObj 401 "Invalid credentials" ∧
    login db ⟨some e1, some pw1⟩ now serverKey
      = login db ⟨some e2, some pw2⟩ now serverKey ∧
    get_profile db (.bearer (.malformed raw)) tnow serverKey
      = .ok (.errObj 401 "Invalid token") ∧
    get_profile db (.bearer (.signed p serverKey)) tnow serverKey
      = .ok (.errObj 401 "Invalid token") ∧
    get_profile db (.bearer (.malformed raw)) tnow serverKey
      = get_profile db (.bearer (.signed p serverKey)) tnow serverKey := by
  have l1 : login db ⟨some e1, some pw1⟩ now serverKey
      = .errObj 401 "Invalid credentials" := by
    unfold login
    rw [h1]
  have l2 : login db ⟨some e2, some pw2⟩ now serverKey
      = .errObj 401 "Invalid credentials" := by
    unfold login
    rw [h2]
    simp [h3]
  have g1 : get_profile db (.bearer (.malformed raw)) tnow serverKey
      = .ok (.errObj 401 "Invalid token") := rfl
  have g2 : get_profile db (.bearer (.signed p serverKey)) tnow serverKey
      = .ok (.errObj 401 "Invalid token") := by
    unfold get_profile verify_token
    simp [hexp]
  exact ⟨l1, l2, l1.trans l2.symm, g1, g2, g1.trans g2.symm⟩

/-- Witness for C4 at the seeded store: unknown email vs seeded email
with a wrong password; a malformed token vs a token signed with the
server key but already expired. -/
theorem merged_failure_indistinguishability_witness :
    login (INITIAL_USERS_DB 0) ⟨some "nobody@x.com", some "pw"⟩ 5 "key"
      = .errObj 401 "Invalid credentials" ∧
    login (INITIAL_USERS_DB 0) ⟨some "user1@example.com", some "wrong"⟩ 5 "key"
      = .errObj 401 "Invalid credentials" ∧
    login (INITIAL_USERS_DB 0) ⟨some "nobody@x.com", some "pw"⟩ 5 "key"
      = login (INITIAL_USERS_DB 0) ⟨some "user1@example.com", some "wrong"⟩
          5 "key" ∧
    get_profile (INITIAL_USERS_DB 0) (.bearer (.malformed "junk")) 50 "key"
      = .ok (.errObj 401 "Invalid token") ∧
    get_profile (INITIAL_USERS_DB 0)
        (.bearer (.signed ⟨some "user1", 40, 0⟩ "key")) 50 "key"
      = .ok (.errObj 401 "Invalid token") ∧
    get_profile (INITIAL_USERS_DB 0) (.bearer (.malformed "junk")) 50 "key"
      = get_profile (INITIAL_USERS_DB 0)
          (.bearer (.signed ⟨some "user1", 40, 0⟩ "key")) 50 "key" :=
  merged_failure_indistinguishability (INITIAL_USERS_DB 0) "nobody@x.com"
    "user1@example.com" "pw" "wrong"
    { id := "user1", email := some "user1@example.com",
      password_hash := bcrypt_hashpw "password123" 0,
      name := some "John Doe", role := "user",
      created_at := "2025-01-01T00:00:00Z", is_active := true }
    5 50 "key" "junk" ⟨some "user1", 40, 0⟩
    (by decide) (by decide) (by decide) (by decide)



theorem update_users_spec :
    ∀ (db : Store) (uid : String) (nm : Option String) (db' : Store),
    update_users db uid nm = some db' →
    db'.length = db.length ∧
    ∃ (j : Nat) (k : Option String) (r r' : UserRecord),
      db[j]? = some (k, r) ∧ r.id = uid ∧ db'[j]? = some (k, r') ∧
      r'.id = r.id ∧ r'.email = r.email ∧
      r'.password_hash = r.password_hash ∧ r'.role = r.role ∧
      r'.created_at = r.created_at ∧ r'.is_active = r.is_active ∧
      r'.name = nm ∧
      (∀ i : Nat, i ≠ j → db'[i]? = db[i]?) := by
  intro db
  induction db with
  | nil =>
    intro uid nm db' h
    simp [update_users] at h
  | cons entry rest ih =>
    intro uid nm db' h
    unfold update_users at h
    by_cases hid : entry.2.id = uid
    · rw [if_pos hid] at h
      cases h
      refine ⟨by simp, 0, entry.1, entry.2, { entry.2 with name := nm },
        by simp, hid, by simp, rfl, rfl, rfl, rfl, rfl, rfl, rfl, ?_⟩
      intro i hi
      cases i with
      | zero => exact absurd rfl hi
      | succ i' => simp
    · rw [if_neg hid] at h
      cases hrec : update_users rest uid nm with
      | none => rw [hrec] at h; exact absurd h (by simp)
      | some rest' =>
        rw [hrec] at h
        cases h
        obtain ⟨hlen, j, k, r, r', hg, hid', hg', f1, f2, f3, f4, f5, f6, f7,
          hframe⟩ := ih uid nm rest' hrec
        refine ⟨by simp [hlen], j + 1, k, r, r', by simpa using hg, hid',
          by simpa using hg', f1, f2, f3, f4, f5, f6, f7, ?_⟩
        intro i hi
        cases i with
        | zero => simp
        | succ i' =>
          simp only [List.getElem?_cons_succ]
          exact hframe i' (fun hh => hi (by rw [hh]))

/-- Claim C6: a successful profile update through the PUT handler returns the
success response together with a store in which exactly the first record
whose id matches the token's subject changed, and only in its name
field: its dict key, id, email, password hash, role, creation timestamp
and active flag are untouched, and every other position of the store is
literally unchanged. -/
theorem update_profile_frame
    (db db' : Store) (token : Token) (uid : String) (nm : Option String)
    (now : Nat) (serverKey : String)
    (hauth : verify_token token now serverKey = .ok (some uid))
    (huid : uid ≠ "")
    (hupd : update_users db uid nm = some db') :
    update_profile db (.bearer token) nm now serverKey
      = .ok (.success, db') ∧
    db'.length = db.length ∧
    ∃ (j : Nat) (k : Option String) (r r' : UserRecord),
      db[j]? = some (k, r) ∧ r.id = uid ∧ db'[j]? = some (k, r') ∧
      r'.id = r.id ∧ r'.email = r.email ∧
      r'.password_hash = r.password_hash ∧ r'.role = r.role ∧
      r'.created_at = r.created_at ∧ r'.is_active = r.is_active ∧
      r'.name = nm ∧
      (∀ i : Nat, i ≠ j → db'[i]? = db[i]?) := by
  refine ⟨?_, update_users_spec db uid nm db' hupd⟩
  simp [update_profile, hauth, huid, hupd]

/-- Witness for C6: renaming the seeded user through the handler with a
valid token. -/
theorem update_profile_frame_witness :
    update_profile (INITIAL_USERS_DB 0)
        (.bearer (Token.signed ⟨some "user1", 100, 0⟩ "key")) (some "New Name")
        10 "key"
      = .ok (.success,
          [(some "user1@example.com",
            { id := "user1", email := some "user1@example.com",
              password_hash := bcrypt_hashpw "password123" 0,
              name := some "New Name", role := "user",
              created_at := "2025-01-01T00:00:00Z", is_active := true })]) :=
  (update_profile_frame (INITIAL_USERS_DB 0) _
    (Token.signed ⟨some "user1", 100, 0⟩ "key") "user1" (some "New Name")
    10 "key" (by decide) (by decide) (by decide)).1



theorem update_users_ids :
    ∀ (db : Store) (uid : String) (nm : Option String) (db' : Store),
    update_users db uid nm = some db' → store_ids db' = store_ids db := by
  intro db
  induction db with
  | nil => intro uid nm db' h; simp [update_users] at h
  | cons entry rest ih =>
    intro uid nm db' h
    unfold update_users at h
    by_cases hid : entry.2.id = uid
    · rw [if_pos hid] at h
      cases h
      simp [store_ids]
    · rw [if_neg hid] at h
      cases hrec : update_users rest uid nm with
      | none => rw [hrec] at h; exact absurd h (by simp)
      | some rest' =>
        rw [hrec] at h
        cases h
        simp only [store_ids, List.map_cons]
        rw [show List.map (fun e => e.2.id) rest' = List.map (fun e => e.2.id) rest
          from ih uid nm rest' hrec]

theorem has_key_false_not_mem {db : Store} {k : Option String}
    (h : has_key db k = false) : k ∉ store_keys db := by
  intro hmem
  obtain ⟨e, he, hek⟩ := List.mem_map.mp hmem
  have hf := any_eq_false_of_has_key_false h e he
  rw [hek] at hf
  simp at hf

theorem update_users_keys :
    ∀ (db : Store) (uid : String) (nm : Option String) (db' : Store),
    update_users db uid nm = some db' → store_keys db' = store_keys db := by
  intro db
  induction db with
  | nil => intro uid nm db' h; simp [update_users] at h
  | cons entry rest ih =>
    intro uid nm db' h
    unfold update_users at h
    by_cases hid : entry.2.id = uid
    · rw [if_pos hid] at h
      cases h
      simp [store_keys]
    · rw [if_neg hid] at h
      cases hrec : update_users rest uid nm with
      | none => rw [hrec] at h; exact absurd h (by simp)
      | some rest' =>
        rw [hrec] at h
        cases h
        simp only [store_keys, List.map_cons]
        rw [show List.map Prod.fst rest' = List.map Prod.fst rest
          from ih uid nm rest' hrec]

theorem update_profile_store_cases
    (db db' : Store) (auth : AuthHeader) (nm : Option String) (now : Nat)
    (serverKey : String) (resp : UpdateResp)
    (h : update_profile db auth nm now serverKey = .ok (resp, db')) :
    db' = db ∨ ∃ uid, update_users db uid nm = some db' := by
  cases auth with
  | missing =>
    simp [update_profile] at h
    exact Or.inl h.2.symm
  | notBearer raw =>
    simp [update_profile] at h
    exact Or.inl h.2.symm
  | bearer token =>
    cases hv : verify_token token now serverKey with
    | raises e => simp [update_profile, hv] at h
    | ok o =>
      cases o with
      | none =>
        simp [update_profile, hv] at h
        exact Or.inl h.2.symm
      | some uid =>
        by_cases huid : uid = ""
        · simp [update_profile, hv, huid] at h
          exact Or.inl h.2.symm
        · cases hupd : update_users db uid nm with
          | none =>
            simp [update_profile, hv, huid, hupd] at h
            exact Or.inl h.2.symm
          | some dbu =>
            simp [update_profile, hv, huid, hupd] at h
            exact Or.inr ⟨uid, by rw [← h.2]; exact hupd⟩

/-- Claim C8: the full store invariant.  The seeded store is canonical
(position `i` holds id `user{i+1}`) and holds one record per email;
`register` preserves canonicity, it only ever appends (existing records
— hence existing ids — are retained verbatim as a prefix), a successful
registration is assigned the next id `user{size+1}`, which is not among
the stored ids (monotone assignment, never reused); `update_profile`
never changes any id; canonicity forces all ids to be pairwise
distinct; and the exactly-one-record-per-email discipline (pairwise
distinct store keys) holds of the seeded store, is preserved by
`register` (the membership check of line 70 guards the append), and is
preserved verbatim by `update_profile`, whose update loop never touches
keys.  `login` and `get_profile` do not write the store at all (their
embeddings return no store). -/
theorem store_id_invariant
    (salt : Nat) (db db' : Store) (body : RegisterBody) (nowIso : String)
    (auth : AuthHeader) (nm : Option String) (now : Nat) (serverKey : String)
    (resp : UpdateResp) :
    ids_canonical (INITIAL_USERS_DB salt) ∧
    (ids_canonical db → ids_canonical (register db body salt nowIso).2) ∧
    (∃ tail, (register db body salt nowIso).2 = db ++ tail) ∧
    (∀ uid, (register db body salt nowIso).1 = .success uid →
       uid = mk_user_id (db.length + 1) ∧
       (ids_canonical db → uid ∉ store_ids db)) ∧
    (update_profile db auth nm now serverKey = .ok (resp, db') →
       store_ids db' = store_ids db) ∧
    (ids_canonical db → (store_ids db).Nodup) ∧
    keys_nodup (INITIAL_USERS_DB salt) ∧
    (keys_nodup db → keys_nodup (register db body salt nowIso).2) ∧
    (update_profile db auth nm now serverKey = .ok (resp, db') →
       store_keys db' = store_keys db) := by
  have hinj : Function.Injective (fun i : Nat => mk_user_id (i + 1)) := by
    intro a b hab
    have := mk_user_id_injective hab
    omega
  refine ⟨?_, ?_, ?_, ?_, ?_, ?_, ?_, ?_, ?_⟩
  · unfold ids_canonical
    have h1 : store_ids (INITIAL_USERS_DB salt) = ["user1"] := rfl
    have h2 : (List.range (INITIAL_USERS_DB salt).length).map
        (fun i => mk_user_id (i + 1)) = [mk_user_id 1] := rfl
    rw [h1, h2]
    decide
  · intro hc
    unfold register
    by_cases hk : has_key db body.email
    · simpa [hk] using hc
    · cases hpw : body.password with
      | none => simpa [hk] using hc
      | some pw =>
        simp only [hk, Bool.false_eq_true, if_false]
        unfold ids_canonical store_ids at hc ⊢
        rw [List.map_append, List.length_append, hc]
        simp [List.range_succ]
  · unfold register
    by_cases hk : has_key db body.email
    · exact ⟨[], by simp [hk]⟩
    · cases hpw : body.password with
      | none => exact ⟨[], by simp [hk]⟩
      | some pw =>
        refine ⟨[(body.email,
          { id := mk_user_id (db.length + 1), email := body.email,
            password_hash := bcrypt_hashpw pw salt, name := body.name,
            role := "user", created_at := nowIso, is_active := true })], ?_⟩
        simp [hk]
  · intro uid hs
    unfold register at hs
    by_cases hk : has_key db body.email
    · simp [hk] at hs
    · cases hpw : body.password with
      | none => rw [hpw] at hs; simp [hk] at hs
      | some pw =>
        rw [hpw] at hs
        simp only [hk, Bool.false_eq_true, if_false] at hs
        have huid : uid = mk_user_id (db.length + 1) :=
          (RegisterResp.success.injEq _ _).mp hs.symm
        refine ⟨huid, ?_⟩
        intro hc hmem
        rw [huid] at hmem
        unfold ids_canonical at hc
        rw [hc] at hmem
        obtain ⟨i, hir, hieq⟩ := List.mem_map.mp hmem
        have h1 := mk_user_id_injective hieq
        have h2 := List.mem_range.mp hir
        omega
  · intro h
    rcases update_profile_store_cases db db' auth nm now serverKey resp h with
      heq | ⟨uid, hupd⟩
    · rw [heq]
    · exact update_users_ids db uid nm db' hupd
  · intro hc
    unfold ids_canonical at hc
    rw [hc]
    exact List.Nodup.map hinj (List.nodup_range _)
  · unfold keys_nodup
    have h1 : store_keys (INITIAL_USERS_DB salt)
        = [some "user1@example.com"] := rfl
    rw [h1]
    simp
  · intro hkn
    unfold register
    by_cases hk : has_key db body.email
    · simpa [hk] using hkn
    · cases hpw : body.password with
      | none => simpa [hk] using hkn
      | some pw =>
        simp only [hk, Bool.false_eq_true, if_false]
        unfold keys_nodup store_keys at hkn ⊢
        rw [List.map_append, List.nodup_append]
        refine ⟨hkn, by simp, ?_⟩
        intro a ha hb
        simp only [List.map_cons, List.map_nil, List.mem_singleton] at hb
        rw [hb] at ha
        exact has_key_false_not_mem (by simpa using hk) ha
  · intro h
    rcases update_profile_store_cases db db' auth nm now serverKey resp h with
      heq | ⟨uid, hupd⟩
    · rw [heq]
    · exact update_users_keys db uid nm db' hupd

/-- Witness for C8: concrete instantiation; a successful registration on
the seeded store is assigned the fresh id `user2`, not already stored. -/
theorem store_id_invariant_witness :
    "user2" = mk_user_id ((INITIAL_USERS_DB 0).length + 1) ∧
    (ids_canonical (INITIAL_USERS_DB 0) →
      "user2" ∉ store_ids (INITIAL_USERS_DB 0)) :=
  (store_id_invariant 0 (INITIAL_USERS_DB 0) [] ⟨some "a@x.com", some "pw",
      some "Ann"⟩ "t" .missing none 0 "key" .success).2.2.2.1 "user2" (by decide)

end UserApi
